import Mathlib

/-
  Verification development for the esp32-h2-zigbee-window firmware.

  The repository contains two alternate implementations of the same modules:
  * namespace `Window.B` embeds the mcpwm-based servo module
    (main/servo_control.c, identical to the unnamed servo_control variant)
    together with its ZigBee command callback (main/zigbee_handler.c);
  * namespace `Window.A` embeds the state-machine implementation
    (esp32-h2-zigbee-window/main/state_management.c with its stub
    servo_control.c, zigbee_device.c reporting and main.c command handler).

  C integers are modelled as Nat (uint8_t/uint16_t arguments) and Int
  (the `int` angle fields); esp_err_t is the inductive `EspErr`; the
  FreeRTOS delays, logging and PWM register writes are side effects with
  no bearing on the specified properties and are omitted.  Outward ZigBee
  traffic and actuator commands are collected in explicit trace lists.
-/

namespace Window

/-- Error codes of esp_err_t actually produced by the embedded code:
ESP_OK, ESP_ERR_INVALID_ARG, ESP_ERR_INVALID_STATE, ESP_ERR_TIMEOUT
(returned by move_servo_smooth on resistance), ESP_ERR_NVS_NOT_FOUND. -/
inductive EspErr where
  | ok
  | invalidArg
  | invalidState
  | timeout
  | nvsNotFound
deriving DecidableEq, Repr

namespace B

/-- One physical servo of main/servo_control.c: the mutable fields of
`servo_t` that are not opaque mcpwm driver handles. -/
structure ServoB where
  current_angle : Int
  target_angle : Int
  is_enabled : Bool
deriving DecidableEq, Repr

/-- State of the resistance detection machinery: the static
`resistance_threshold` and `resistance_detected` of servo_control.c, plus
the stream of pending ADC current-sensor samples (the environment input of
`read_current_sensor`; an exhausted stream yields the default value 1000,
the below-threshold value the C function returns when the ADC is absent). -/
structure Sense where
  threshold : Nat
  latched : Bool
  readings : List Nat
deriving DecidableEq, Repr

/-- read_current_sensor: consume one ADC sample (default 1000). -/
def read_current_sensor (s : Sense) : Nat × Sense :=
  (s.readings.headD 1000, { s with readings := s.readings.tail })

/-- servo_check_resistance: read the sensor, then report true if the
simulation/latch flag is set, else latch and report true when the sample
exceeds the threshold, else clear the latch and report false. -/
def servo_check_resistance (s : Sense) : Bool × Sense :=
  let (v, s₁) := read_current_sensor s
  if s₁.latched then (true, s₁)
  else if s₁.threshold < v then (true, { s₁ with latched := true })
  else (false, { s₁ with latched := false })

/-- set_servo_angle: fails when the servo is not enabled, otherwise clamps
the angle to 0..180 and commits it as the current angle. -/
def set_servo_angle (sv : ServoB) (angle : Int) : EspErr × ServoB :=
  if !sv.is_enabled then (.invalidState, sv)
  else
    let a := max 0 (min angle 180)
    (.ok, { sv with current_angle := a })

/-- Ascending half of the move_servo_smooth step loop
(for angle = current; angle <= target; angle++).  `fuel` is the exact
iteration count target - current + 1; each iteration commands the angle,
polls the resistance sensor and aborts with ESP_ERR_TIMEOUT when it
reports true. -/
def sweepUp (fuel : Nat) (angle : Int) (sv : ServoB) (s : Sense) :
    EspErr × ServoB × Sense :=
  match fuel with
  | 0 => (.ok, sv, s)
  | n + 1 =>
    let (e, sv₁) := set_servo_angle sv angle
    if e ≠ .ok then (e, sv₁, s)
    else
      let (r, s₁) := servo_check_resistance s
      if r then (.timeout, sv₁, s₁)
      else sweepUp n (angle + 1) sv₁ s₁

/-- Descending half of the move_servo_smooth step loop
(for angle = current; angle >= target; angle--). -/
def sweepDown (fuel : Nat) (angle : Int) (sv : ServoB) (s : Sense) :
    EspErr × ServoB × Sense :=
  match fuel with
  | 0 => (.ok, sv, s)
  | n + 1 =>
    let (e, sv₁) := set_servo_angle sv angle
    if e ≠ .ok then (e, sv₁, s)
    else
      let (r, s₁) := servo_check_resistance s
      if r then (.timeout, sv₁, s₁)
      else sweepDown n (angle - 1) sv₁ s₁

/-- move_servo_smooth: degree-by-degree sweep from the current to the
target angle with a resistance check after every commanded degree; when
current == target neither loop body runs.  On success the target angle is
recorded; on abort the servo keeps the angle at which it stopped. -/
def move_servo_smooth (sv : ServoB) (s : Sense) (target : Int) :
    EspErr × ServoB × Sense :=
  if !sv.is_enabled then (.invalidState, sv, s)
  else
    let t := max 0 (min target 180)
    let c := sv.current_angle
    let (e, sv₁, s₁) :=
      if c < t then sweepUp ((t - c).toNat + 1) c sv s
      else if t < c then sweepDown ((c - t).toNat + 1) c sv s
      else (.ok, sv, s)
    if e = .ok then (.ok, { sv₁ with target_angle := t }, s₁)
    else (e, sv₁, s₁)

/-- The statics of main/servo_control.c: both servos, the current window
mode and gap percentage (mode kept as the raw enum tag: 0 closed, 1 open,
2 ventilate), and the resistance machinery. -/
structure BCtx where
  handle_servo : ServoB
  gap_servo : ServoB
  mode : Nat
  gap_pct : Nat
  sense : Sense
deriving DecidableEq, Repr

/-- Target handle angle of the servo_set_window_mode switch: closed 0,
open 90, ventilate 180; unknown tags have no target. -/
def modeTargetAngle : Nat → Option Int
  | 0 => some 0
  | 1 => some 90
  | 2 => some 180
  | _ => none

/-- servo_set_window_mode: map the mode tag to the handle target angle
(0/90/180, unknown tags rejected), sweep the handle servo, and on success
commit the mode; when the new mode is closed additionally force the gap
percentage to 0 and sweep the gap servo to 0, discarding that sweep's
result. -/
def servo_set_window_mode (tag : Nat) (b : BCtx) : EspErr × BCtx :=
  match modeTargetAngle tag with
  | none => (.invalidArg, b)
  | some target =>
    let (e, h₁, s₁) := move_servo_smooth b.handle_servo b.sense target
    if e = .ok then
      if tag = 0 then
        let (_, g₁, s₂) := move_servo_smooth b.gap_servo s₁ 0
        (.ok, { b with handle_servo := h₁, gap_servo := g₁, mode := tag,
                       gap_pct := 0, sense := s₂ })
      else
        (.ok, { b with handle_servo := h₁, mode := tag, sense := s₁ })
    else
      (e, { b with handle_servo := h₁, sense := s₁ })

/-- servo_set_gap: only allowed while the window mode is open (tag 1);
clamps the percentage to 100, converts it to a 0..90 degree target and
sweeps the gap servo, committing the clamped percentage on success. -/
def servo_set_gap (p : Nat) (b : BCtx) : EspErr × BCtx :=
  if b.mode ≠ 1 then (.invalidState, b)
  else
    let p₁ := if p > 100 then 100 else p
    let target : Int := (p₁ * 90 / 100 : Nat)
    let (e, g₁, s₁) := move_servo_smooth b.gap_servo b.sense target
    if e = .ok then
      (.ok, { b with gap_servo := g₁, gap_pct := p₁, sense := s₁ })
    else
      (e, { b with gap_servo := g₁, sense := s₁ })

/-- servo_calibrate: re-enable both servos if disabled, then run the full
calibration sweeps (handle 0 / 180 / 0, gap 0 / 90 / 0), returning the
first sweep error; on success reset the mode to closed and the gap to 0.
The fixed inter-sweep delays are omitted. -/
def servo_calibrate (b : BCtx) : EspErr × BCtx :=
  let h₀ := { b.handle_servo with is_enabled := true }
  let g₀ := { b.gap_servo with is_enabled := true }
  let (e₁, h₁, s₁) := move_servo_smooth h₀ b.sense 0
  if e₁ ≠ .ok then (e₁, { b with handle_servo := h₁, gap_servo := g₀, sense := s₁ })
  else
    let (e₂, h₂, s₂) := move_servo_smooth h₁ s₁ 180
    if e₂ ≠ .ok then (e₂, { b with handle_servo := h₂, gap_servo := g₀, sense := s₂ })
    else
      let (e₃, h₃, s₃) := move_servo_smooth h₂ s₂ 0
      if e₃ ≠ .ok then (e₃, { b with handle_servo := h₃, gap_servo := g₀, sense := s₃ })
      else
        let (e₄, g₁, s₄) := move_servo_smooth g₀ s₃ 0
        if e₄ ≠ .ok then (e₄, { b with handle_servo := h₃, gap_servo := g₁, sense := s₄ })
        else
          let (e₅, g₂, s₅) := move_servo_smooth g₁ s₄ 90
          if e₅ ≠ .ok then (e₅, { b with handle_servo := h₃, gap_servo := g₂, sense := s₅ })
          else
            let (e₆, g₃, s₆) := move_servo_smooth g₂ s₅ 0
            if e₆ ≠ .ok then (e₆, { b with handle_servo := h₃, gap_servo := g₃, sense := s₆ })
            else
              (.ok, { handle_servo := h₃, gap_servo := g₃, mode := 0,
                      gap_pct := 0, sense := s₆ })

/-- Connection states of main/zigbee_handler.c. -/
inductive ZState where
  | disconnected
  | connecting
  | connected
deriving DecidableEq, Repr

/-- The statics of main/zigbee_handler.c relevant to command handling:
the connection state and the module's own copies of the window mode and
gap percentage. -/
structure ZCtx where
  zstate : ZState
  cur_mode : Nat
  cur_gap : Nat
deriving DecidableEq, Repr

/-- Outward ZigBee traffic of the handler module: mode reports, position
reports and alerts (esp_zigbee_report_window_mode / report_position /
send_alert with the esp-level alert tag). -/
inductive BMsg where
  | reportMode (m : Nat)
  | reportPos (p : Nat)
  | alert (t v : Nat)
deriving DecidableEq, Repr

/-- Whether an outward message is an alert (esp_zigbee_send_alert). -/
def BMsg.isAlert : BMsg → Bool
  | .alert _ _ => true
  | _ => false

/-- zigbee_send_window_mode: refuse when not connected, otherwise report
the mode and record it as the module's current mode. -/
def zigbee_send_window_mode (m : Nat) (z : ZCtx) : EspErr × ZCtx × List BMsg :=
  if z.zstate ≠ .connected then (.invalidState, z, [])
  else (.ok, { z with cur_mode := m }, [.reportMode m])

/-- zigbee_send_gap_position: refuse when not connected, otherwise report
the position and record it as the module's current gap percentage. -/
def zigbee_send_gap_position (p : Nat) (z : ZCtx) : EspErr × ZCtx × List BMsg :=
  if z.zstate ≠ .connected then (.invalidState, z, [])
  else (.ok, { z with cur_gap := p }, [.reportPos p])

/-- zigbee_send_alert: refuse when not connected, translate the module
alert tag (0 low-battery, 1 resistance, 2 mode-change, 3 protection) to
the esp-level tag (identity on 0..3), rejecting unknown tags. -/
def zigbee_send_alert (t v : Nat) (z : ZCtx) : EspErr × ZCtx × List BMsg :=
  if z.zstate ≠ .connected then (.invalidState, z, [])
  else if t ≤ 3 then (.ok, z, [.alert t v])
  else (.invalidArg, z, [])

/-- zigbee_on_command: the command callback of main/zigbee_handler.c.
Command tags: 0 SET_MODE, 1 SET_POSITION, 2 STOP, 3 CALIBRATE, 4 PING.
SET_MODE and SET_POSITION act when the payload has length >= 1, using only
its first byte; on servo success the module copies are updated and a
confirmation report is sent (silently skipped when disconnected).
Commands with too-short payloads and unknown command tags are dropped. -/
def zigbee_on_command (cmd : Nat) (data : List Nat) (z : ZCtx) (b : BCtx) :
    ZCtx × BCtx × List BMsg :=
  match cmd with
  | 0 =>
    match data with
    | m :: _ =>
      let (e, b₁) := servo_set_window_mode m b
      if e = .ok then
        let (_, z₁, msgs) := zigbee_send_window_mode m { z with cur_mode := m }
        (z₁, b₁, msgs)
      else (z, b₁, [])
    | [] => (z, b, [])
  | 1 =>
    match data with
    | p :: _ =>
      let (e, b₁) := servo_set_gap p b
      if e = .ok then
        let (_, z₁, msgs) := zigbee_send_gap_position p { z with cur_gap := p }
        (z₁, b₁, msgs)
      else (z, b₁, [])
    | [] => (z, b, [])
  | 3 =>
    let (_, b₁) := servo_calibrate b
    (z, b₁, [])
  | _ => (z, b, [])

end B

namespace A

/-- window_mode_t of the esp32-h2-zigbee-window tree
(CLOSED = 0, OPEN = 1, VENTILATE = 2, CUSTOM = 3). -/
inductive WindowMode where
  | closed
  | opened
  | ventilate
  | custom
deriving DecidableEq, Repr

/-- Numeric tag of a window mode (the C enum value). -/
def WindowMode.tag : WindowMode → Nat
  | .closed => 0
  | .opened => 1
  | .ventilate => 2
  | .custom => 3

/-- Decode a raw byte into a window mode; the C code casts the byte to
window_mode_t and validates it against the four enum constants, so bytes
outside 0..3 decode to none. -/
def windowModeOfTag : Nat → Option WindowMode
  | 0 => some .closed
  | 1 => some .opened
  | 2 => some .ventilate
  | 3 => some .custom
  | _ => none

/-- handle_position_t of the esp32-h2-zigbee-window servo_control.h
(its text sits in src appended to zigbee_device.c):
HANDLE_POSITION_CLOSED = 0, HANDLE_POSITION_OPEN = 90,
HANDLE_POSITION_VENTILATE = 180 — the handle servo angle in degrees. -/
inductive HandlePosition where
  | closed
  | opened
  | ventilate
deriving DecidableEq, Repr

/-- Numeric value of a handle_position_t constant per its declaration
(the handle servo angle: 0 closed, 90 open, 180 ventilate). -/
def HandlePosition.tag : HandlePosition → Nat
  | .closed => 0
  | .opened => 90
  | .ventilate => 180

/-- Decode a raw byte into a handle position; the state-machine entry
point validates its argument against the three declared enum constants
(0 / 90 / 180), so any other byte decodes to none. -/
def handlePosOfTag : Nat → Option HandlePosition
  | 0 => some .closed
  | 90 => some .opened
  | 180 => some .ventilate
  | _ => none

/-- The mutable statics of the stub servo_control.c of the
esp32-h2-zigbee-window tree: initialization flag, remembered handle
position and gap percentage (the calibration flags are untouched by the
claims and omitted). -/
structure ServoA where
  inited : Bool
  handle_pos : HandlePosition
  gap_percentage : Nat
deriving DecidableEq, Repr

/-- servo_set_handle_position (stub variant): fails before init; the C
validity check against the three enum constants always passes for a value
of the enum type; the position is recorded. -/
def servo_set_handle_position (p : HandlePosition) (sv : ServoA) :
    EspErr × ServoA :=
  if !sv.inited then (.invalidState, sv)
  else (.ok, { sv with handle_pos := p })

/-- servo_set_gap_percentage (stub variant): fails before init, rejects
percentages above 100, otherwise records the percentage. -/
def servo_set_gap_percentage (p : Nat) (sv : ServoA) : EspErr × ServoA :=
  if !sv.inited then (.invalidState, sv)
  else if p > 100 then (.invalidArg, sv)
  else (.ok, { sv with gap_percentage := p })

/-- The persisted NVS record: the four u8 values stored under the keys
mode / handle_pos / gap_pct / calibrated (none = key absent). -/
structure Nvs where
  mode : Option Nat
  handle_pos : Option Nat
  gap_pct : Option Nat
  calibrated : Option Nat
deriving DecidableEq, Repr

/-- window_state_t: the canonical window state owned by
state_management.c. -/
structure WindowState where
  mode : WindowMode
  handle_pos : HandlePosition
  gap_percentage : Nat
  calibrated : Bool
  in_motion : Bool
  last_action_time : Nat
deriving DecidableEq, Repr

/-- state_config_t. -/
structure StateConfig where
  save_to_nvs : Bool
  save_interval_ms : Nat
  restore_on_boot : Bool
deriving DecidableEq, Repr

/-- The state-management context: the statics of state_management.c
together with the servo stub statics and the NVS contents it talks to. -/
structure StateCtx where
  inited : Bool
  config : StateConfig
  state : WindowState
  last_save_time : Nat
  nvs_opened : Bool
  nvs : Nvs
  servo : ServoA
deriving DecidableEq, Repr

/-- Outward ZigBee calls made by the state machine and the command
handler: zigbee_device_report_state (mode tag, percentage) and
zigbee_device_send_alert (alert tag, value).  Alert tags of
zigbee_device.h: 0 low-battery, 1 stuck, 2 mode-changed, 3 protection. -/
inductive ZbCall where
  | report (modeTag pct : Nat)
  | alert (alertTag v : Nat)
deriving DecidableEq, Repr

/-- Actuator commands issued by the state machine, in issue order. -/
inductive ServoCmd where
  | setHandle (p : HandlePosition)
  | setGap (pct : Nat)
deriving DecidableEq, Repr

/-- Result of a state-machine operation: the returned esp_err_t, the
updated context, the outward ZigBee calls and the actuator commands
issued during the call, in order. -/
structure ARes where
  ret : EspErr
  ctx : StateCtx
  zb : List ZbCall
  cmds : List ServoCmd
deriving DecidableEq, Repr

/-- state_save_to_nvs: requires the NVS handle to be open, then writes
the four u8 fields and commits.  NVS write failures are not modelled
(no claim exercises them). -/
def state_save_to_nvs (c : StateCtx) : EspErr × StateCtx :=
  if !c.nvs_opened then (.invalidState, c)
  else
    (.ok, { c with nvs :=
      { mode := some c.state.mode.tag
        handle_pos := some c.state.handle_pos.tag
        gap_pct := some c.state.gap_percentage
        calibrated := some (if c.state.calibrated then 1 else 0) } })

/-- state_restore_from_nvs: requires the NVS handle to be open; each
present key overwrites the corresponding field, a missing key keeps the
in-memory value (ESP_ERR_NVS_NOT_FOUND is tolerated).  The C code casts
the stored mode / handle-position bytes straight into the enums; a byte
outside the enum range would produce an out-of-range C enum, which the
model (whose state carries the enums) represents by keeping the previous
field value — every byte actually written by state_save_to_nvs is in
range, and no claim exercises foreign bytes. -/
def state_restore_from_nvs (c : StateCtx) : EspErr × StateCtx :=
  if !c.nvs_opened then (.invalidState, c)
  else
    let s₀ := c.state
    let s₁ := match c.nvs.mode with
      | some v => { s₀ with mode := (windowModeOfTag v).getD s₀.mode }
      | none => s₀
    let s₂ := match c.nvs.handle_pos with
      | some v => { s₁ with handle_pos := (handlePosOfTag v).getD s₁.handle_pos }
      | none => s₁
    let s₃ := match c.nvs.gap_pct with
      | some v => { s₂ with gap_percentage := v }
      | none => s₂
    let s₄ := match c.nvs.calibrated with
      | some v => { s₃ with calibrated := v = 1 }
      | none => s₃
    (.ok, { c with state := s₄ })

/-- state_open_nvs: open the namespace handle.  nvs_open failures are not
modelled (no claim exercises them). -/
def state_open_nvs (c : StateCtx) : EspErr × StateCtx :=
  (.ok, { c with nvs_opened := true })

/-- Mode-changed alert tag of zigbee_device.h (ZIGBEE_ALERT_MODE_CHANGED). -/
def alertModeChanged : Nat := 2

/-- state_set_window_mode: reject before init, reject byte tags outside
the four enum constants, no-op success when the mode is unchanged;
otherwise derive the target handle position and gap percentage (Custom
keeps the current ones and skips the gap actuator), command the handle
servo then the gap servo, aborting without touching the state on an
actuator error; on success commit the state, mark motion, stamp the
action time, report the state, send a mode-changed alert and persist when
configured. -/
def state_set_window_mode (tag now : Nat) (c : StateCtx) : ARes :=
  if !c.inited then ⟨.invalidState, c, [], []⟩
  else
    match windowModeOfTag tag with
    | none => ⟨.invalidArg, c, [], []⟩
    | some mode =>
      if mode = c.state.mode then ⟨.ok, c, [], []⟩
      else
        let (nhp, ngap) :=
          match mode with
          | .closed => (HandlePosition.closed, 0)
          | .opened => (HandlePosition.opened, 100)
          | .ventilate => (HandlePosition.ventilate, 20)
          | .custom => (c.state.handle_pos, c.state.gap_percentage)
        let (e₁, sv₁) := servo_set_handle_position nhp c.servo
        if e₁ ≠ .ok then ⟨e₁, { c with servo := sv₁ }, [], [.setHandle nhp]⟩
        else
          let (e₂, sv₂, cmds) :=
            if mode = .custom then
              (.ok, sv₁, [ServoCmd.setHandle nhp])
            else
              let (e, sv) := servo_set_gap_percentage ngap sv₁
              (e, sv, [ServoCmd.setHandle nhp, ServoCmd.setGap ngap])
          if e₂ ≠ .ok then ⟨e₂, { c with servo := sv₂ }, [], cmds⟩
          else
            let st : WindowState :=
              { mode := mode
                handle_pos := nhp
                gap_percentage :=
                  if mode = .custom then c.state.gap_percentage else ngap
                calibrated := c.state.calibrated
                in_motion := true
                last_action_time := now }
            let c₁ := { c with state := st, servo := sv₂ }
            let c₂ :=
              if c₁.config.save_to_nvs && c₁.nvs_opened then
                (state_save_to_nvs c₁).2
              else c₁
            ⟨.ok, c₂,
              [.report mode.tag st.gap_percentage,
               .alert alertModeChanged mode.tag], cmds⟩

/-- Mode derived from a handle position in state_set_handle_position. -/
def modeOfHandle : HandlePosition → WindowMode
  | .closed => .closed
  | .opened => .opened
  | .ventilate => .ventilate

/-- state_set_handle_position: reject before init, reject byte tags
outside the three enum constants, no-op success when the position is
unchanged; otherwise command the handle servo, derive the new mode from
the position, commit position and mode (the gap percentage is left as it
was), mark motion, stamp, report and persist when configured.  No
mode-changed alert is sent on this path. -/
def state_set_handle_position (tag now : Nat) (c : StateCtx) : ARes :=
  if !c.inited then ⟨.invalidState, c, [], []⟩
  else
    match handlePosOfTag tag with
    | none => ⟨.invalidArg, c, [], []⟩
    | some pos =>
      if pos = c.state.handle_pos then ⟨.ok, c, [], []⟩
      else
        let (e₁, sv₁) := servo_set_handle_position pos c.servo
        if e₁ ≠ .ok then ⟨e₁, { c with servo := sv₁ }, [], [.setHandle pos]⟩
        else
          let nm := modeOfHandle pos
          let st := { c.state with
            handle_pos := pos, mode := nm, in_motion := true,
            last_action_time := now }
          let c₁ := { c with state := st, servo := sv₁ }
          let c₂ :=
            if c₁.config.save_to_nvs && c₁.nvs_opened then
              (state_save_to_nvs c₁).2
            else c₁
          ⟨.ok, c₂, [.report nm.tag st.gap_percentage], [.setHandle pos]⟩

/-- state_set_gap_percentage: reject before init, reject percentages
above 100 before any actuator action, no-op success when unchanged;
otherwise command the gap servo, and on success force Custom mode
whenever the new percentage does not match the canonical percentage for
the current handle position, commit the percentage, mark motion, stamp,
report and persist when configured. -/
def state_set_gap_percentage (p now : Nat) (c : StateCtx) : ARes :=
  if !c.inited then ⟨.invalidState, c, [], []⟩
  else if p > 100 then ⟨.invalidArg, c, [], []⟩
  else if p = c.state.gap_percentage then ⟨.ok, c, [], []⟩
  else
    let (e₁, sv₁) := servo_set_gap_percentage p c.servo
    if e₁ ≠ .ok then ⟨e₁, { c with servo := sv₁ }, [], [.setGap p]⟩
    else
      let forceCustom :=
        (c.state.handle_pos = .opened ∧ p ≠ 100) ∨
        (c.state.handle_pos = .ventilate ∧ p ≠ 20) ∨
        (c.state.handle_pos = .closed ∧ p ≠ 0)
      let nm := if forceCustom then WindowMode.custom else c.state.mode
      let st := { c.state with
        mode := nm, gap_percentage := p, in_motion := true,
        last_action_time := now }
      let c₁ := { c with state := st, servo := sv₁ }
      let c₂ :=
        if c₁.config.save_to_nvs && c₁.nvs_opened then
          (state_save_to_nvs c₁).2
        else c₁
      ⟨.ok, c₂, [.report nm.tag p], [.setGap p]⟩

/-- state_save: reject before init, silently succeed when NVS persistence
is disabled, open the handle if needed, then write the record. -/
def state_save (c : StateCtx) : EspErr × StateCtx :=
  if !c.inited then (.invalidState, c)
  else if !c.config.save_to_nvs then (.ok, c)
  else
    let c₁ := if !c.nvs_opened then (state_open_nvs c).2 else c
    state_save_to_nvs c₁

/-- state_restore: reject before init or when persistence is disabled,
open the handle if needed, load the record, then re-apply the restored
handle position and gap percentage to the actuators (propagating their
errors) and report the restored state. -/
def state_restore (c : StateCtx) : ARes :=
  if !c.inited then ⟨.invalidState, c, [], []⟩
  else if !c.config.save_to_nvs then ⟨.invalidState, c, [], []⟩
  else
    let c₁ := if !c.nvs_opened then (state_open_nvs c).2 else c
    let (e, c₂) := state_restore_from_nvs c₁
    if e ≠ .ok then ⟨e, c₂, [], []⟩
    else
      let (e₁, sv₁) := servo_set_handle_position c₂.state.handle_pos c₂.servo
      if e₁ ≠ .ok then
        ⟨e₁, { c₂ with servo := sv₁ }, [], [.setHandle c₂.state.handle_pos]⟩
      else
        let (e₂, sv₂) := servo_set_gap_percentage c₂.state.gap_percentage sv₁
        if e₂ ≠ .ok then
          ⟨e₂, { c₂ with servo := sv₂ }, [],
            [.setHandle c₂.state.handle_pos, .setGap c₂.state.gap_percentage]⟩
        else
          ⟨.ok, { c₂ with servo := sv₂ },
            [.report c₂.state.mode.tag c₂.state.gap_percentage],
            [.setHandle c₂.state.handle_pos, .setGap c₂.state.gap_percentage]⟩

/-- state_factory_reset: reject before init; commit the factory state
(Closed, handle closed, gap 0, uncalibrated, no motion) and stamp it
before commanding the actuators (so an actuator error still leaves the
factory state committed); command both servos, erase the NVS record when
the handle is open, and report the Closed state. -/
def state_factory_reset (now : Nat) (c : StateCtx) : ARes :=
  if !c.inited then ⟨.invalidState, c, [], []⟩
  else
    let st : WindowState :=
      { mode := .closed, handle_pos := .closed, gap_percentage := 0,
        calibrated := false, in_motion := false, last_action_time := now }
    let c₁ := { c with state := st }
    let (e₁, sv₁) := servo_set_handle_position .closed c₁.servo
    if e₁ ≠ .ok then
      ⟨e₁, { c₁ with servo := sv₁ }, [], [.setHandle .closed]⟩
    else
      let (e₂, sv₂) := servo_set_gap_percentage 0 sv₁
      if e₂ ≠ .ok then
        ⟨e₂, { c₁ with servo := sv₂ }, [], [.setHandle .closed, .setGap 0]⟩
      else
        let c₂ := { c₁ with servo := sv₂ }
        let c₃ :=
          if c₂.nvs_opened then
            { c₂ with nvs := ⟨none, none, none, none⟩ }
          else c₂
        ⟨.ok, c₃, [.report 0 0], [.setHandle .closed, .setGap 0]⟩

/-- Result of the void command handler of
esp32-h2-zigbee-window/main/main.c. -/
structure HRes where
  ctx : StateCtx
  zb : List ZbCall
  cmds : List ServoCmd
deriving DecidableEq, Repr

/-- zigbee_command_handler: drop payloads shorter than two bytes with a
logged warning; otherwise decode (mode tag, percentage) from the first
two bytes, set the window mode (returning silently on error), set the gap
percentage when the decoded tag is Open or Custom (returning silently on
error), and finally report (mode tag, percentage). -/
def zigbee_command_handler (_cmd : Nat) (data : List Nat) (now : Nat)
    (c : StateCtx) : HRes :=
  match data with
  | m :: p :: _ =>
    let r₁ := state_set_window_mode m now c
    if r₁.ret ≠ .ok then ⟨r₁.ctx, r₁.zb, r₁.cmds⟩
    else if m = 1 ∨ m = 3 then
      let r₂ := state_set_gap_percentage p now r₁.ctx
      if r₂.ret ≠ .ok then ⟨r₂.ctx, r₁.zb ++ r₂.zb, r₁.cmds ++ r₂.cmds⟩
      else
        ⟨r₂.ctx, r₁.zb ++ r₂.zb ++ [.report m p], r₁.cmds ++ r₂.cmds⟩
    else
      ⟨r₁.ctx, r₁.zb ++ [.report m p], r₁.cmds⟩
  | _ => ⟨c, [], []⟩

end A

/-! Shared concrete contexts used by witness theorems. -/

/-- An initialized stub servo context at the factory position. -/
def sampleServoA : A.ServoA := ⟨true, .closed, 0⟩

/-- The deployed state configuration of main.c (NVS persistence on). -/
def sampleConfig : A.StateConfig := ⟨true, 300000, true⟩

/-- The factory-default window state. -/
def sampleState : A.WindowState := ⟨.closed, .closed, 0, false, false, 0⟩

/-- An empty NVS record. -/
def emptyNvs : A.Nvs := ⟨none, none, none, none⟩

/-- An initialized state-machine context at factory defaults with the
NVS handle open. -/
def sampleCtx : A.StateCtx :=
  ⟨true, sampleConfig, sampleState, 0, true, emptyNvs, sampleServoA⟩

/-- An enabled mcpwm servo parked at angle 0. -/
def servoAt0 : B.ServoB := ⟨0, 0, true⟩

/-- A sense context at the default threshold 2000 with the given pending
ADC samples. -/
def senseWith (rs : List Nat) : B.Sense := ⟨2000, false, rs⟩

/-- A freshly initialized servo_control.c context (closed, gap 0) with the
given pending ADC samples. -/
def sampleB (rs : List Nat) : B.BCtx := ⟨servoAt0, servoAt0, 0, 0, senseWith rs⟩

/-- A connected zigbee_handler.c context. -/
def sampleZ : B.ZCtx := ⟨.connected, 0, 0⟩

/-- state_save_to_nvs never changes the in-memory window state. -/
theorem save_to_nvs_keeps_state (c : A.StateCtx) :
    (A.state_save_to_nvs c).2.state = c.state := by
  unfold A.state_save_to_nvs
  split <;> rfl

/-- state_save_to_nvs never changes the servo stub context. -/
theorem save_to_nvs_keeps_servo (c : A.StateCtx) :
    (A.state_save_to_nvs c).2.servo = c.servo := by
  unfold A.state_save_to_nvs
  split <;> rfl

/-- Bytes outside the four window_mode_t constants decode to none. -/
theorem windowModeOfTag_eq_none {tag : Nat} (h : 3 < tag) :
    A.windowModeOfTag tag = none := by
  match tag, h with
  | n + 4, _ => rfl

/-- C3: for every percentage above 100, state_set_gap_percentage of an
initialized state machine returns ESP_ERR_INVALID_ARG, leaves the whole
context (state, servo, NVS) unchanged, issues no actuator command and
reports nothing. -/
theorem C3_over_100_rejected (p now : Nat) (c : A.StateCtx)
    (hi : c.inited = true) (hp : 100 < p) :
    A.state_set_gap_percentage p now c = ⟨.invalidArg, c, [], []⟩ := by
  simp [A.state_set_gap_percentage, hi, hp]

/-- C3 witness at p = 150. -/
theorem C3_over_100_rejected_witness :
    sampleCtx.inited = true ∧ 100 < 150 ∧
    A.state_set_gap_percentage 150 7 sampleCtx = ⟨.invalidArg, sampleCtx, [], []⟩ :=
  ⟨by decide, by decide, C3_over_100_rejected 150 7 sampleCtx (by decide) (by decide)⟩

/-- C9: servo_set_gap refuses with ESP_ERR_INVALID_STATE and commands no
motion whenever the current window mode is not Open (tag 1). -/
theorem C9_gap_requires_open_mode (p : Nat) (b : B.BCtx) (h : b.mode ≠ 1) :
    B.servo_set_gap p b = (.invalidState, b) := by
  simp [B.servo_set_gap, h]

/-- C9 witness: a closed window (mode tag 0) rejects servo_set_gap 50. -/
theorem C9_gap_requires_open_mode_witness :
    (sampleB []).mode ≠ 1 ∧
    B.servo_set_gap 50 (sampleB []) = (.invalidState, sampleB []) :=
  ⟨by decide, C9_gap_requires_open_mode 50 (sampleB []) (by decide)⟩

/-- C4 counterexample: the claim says set_mode rejects the Custom tag,
but state_set_window_mode accepts tag 3 from the initialized factory
state: it returns ESP_OK and commits mode = Custom. -/
theorem C4_counterexample :
    (A.state_set_window_mode 3 5 sampleCtx).ret = .ok ∧
    (A.state_set_window_mode 3 5 sampleCtx).ctx.state.mode = .custom := by
  decide

/-- C4 amended: state_set_window_mode accepts the Custom tag: from any
initialized context (with the servo module up) whose mode is not already
Custom it returns success, re-commands the current handle position, keeps
the handle position and gap percentage unchanged and sets mode = Custom;
only byte tags above 3 are rejected with ESP_ERR_INVALID_ARG. -/
theorem C4_custom_mode_accepted (now : Nat) (c : A.StateCtx)
    (hi : c.inited = true) (hs : c.servo.inited = true)
    (hm : c.state.mode ≠ .custom) :
    ((A.state_set_window_mode 3 now c).ret = .ok ∧
     (A.state_set_window_mode 3 now c).ctx.state.mode = .custom ∧
     (A.state_set_window_mode 3 now c).ctx.state.handle_pos = c.state.handle_pos ∧
     (A.state_set_window_mode 3 now c).ctx.state.gap_percentage = c.state.gap_percentage ∧
     (A.state_set_window_mode 3 now c).cmds = [.setHandle c.state.handle_pos]) ∧
    ∀ tag, 3 < tag → A.state_set_window_mode tag now c = ⟨.invalidArg, c, [], []⟩ := by
  constructor
  · have hm' : A.WindowMode.custom ≠ c.state.mode := fun h => hm h.symm
    by_cases hsv : (c.config.save_to_nvs && c.nvs_opened) = true <;>
      simp [A.state_set_window_mode, hi, A.windowModeOfTag,
        A.servo_set_handle_position, hs, hm', hsv, save_to_nvs_keeps_state]
  · intro tag htag
    simp [A.state_set_window_mode, hi, windowModeOfTag_eq_none htag]

/-- C4 witness: tag 3 is accepted from the factory context, tag 7 is
rejected. -/
theorem C4_custom_mode_accepted_witness :
    sampleCtx.state.mode ≠ A.WindowMode.custom ∧
    (A.state_set_window_mode 3 5 sampleCtx).ret = .ok ∧
    (A.state_set_window_mode 3 5 sampleCtx).ctx.state.mode = .custom ∧
    A.state_set_window_mode 7 5 sampleCtx = ⟨.invalidArg, sampleCtx, [], []⟩ :=
  ⟨by decide,
   ((C4_custom_mode_accepted 5 sampleCtx (by decide) (by decide) (by decide)).1).1,
   ((C4_custom_mode_accepted 5 sampleCtx (by decide) (by decide) (by decide)).1).2.1,
   (C4_custom_mode_accepted 5 sampleCtx (by decide) (by decide) (by decide)).2 7
     (by decide)⟩

/-- C5: within one state_set_window_mode call the actuator commands form
a sequential trace: no command, or a single handle-servo command, or a
handle-servo command strictly followed by a single gap-servo command, the
latter only when the handle command succeeded on the servo module. -/
theorem C5_handle_before_gap (tag now : Nat) (c : A.StateCtx) :
    (A.state_set_window_mode tag now c).cmds = [] ∨
    (∃ hp, (A.state_set_window_mode tag now c).cmds = [A.ServoCmd.setHandle hp]) ∨
    (∃ hp g, (A.state_set_window_mode tag now c).cmds =
        [A.ServoCmd.setHandle hp, A.ServoCmd.setGap g] ∧
      (A.servo_set_handle_position hp c.servo).1 = .ok) := by
  cases hi : c.inited with
  | false => left; simp [A.state_set_window_mode, hi]
  | true =>
    rcases hT : A.windowModeOfTag tag with _ | mode
    · left; simp [A.state_set_window_mode, hi, hT]
    · by_cases hm : mode = c.state.mode
      · left; simp [A.state_set_window_mode, hi, hT, hm]
      · cases hs : c.servo.inited with
        | false =>
          right; left
          cases mode with
          | closed =>
            exact ⟨.closed, by simp [A.state_set_window_mode, hi, hT, hm,
              A.servo_set_handle_position, hs]⟩
          | opened =>
            exact ⟨.opened, by simp [A.state_set_window_mode, hi, hT, hm,
              A.servo_set_handle_position, hs]⟩
          | ventilate =>
            exact ⟨.ventilate, by simp [A.state_set_window_mode, hi, hT, hm,
              A.servo_set_handle_position, hs]⟩
          | custom =>
            exact ⟨c.state.handle_pos, by simp [A.state_set_window_mode, hi,
              hT, hm, A.servo_set_handle_position, hs]⟩
        | true =>
          cases mode with
          | custom =>
            right; left
            exact ⟨c.state.handle_pos, by simp [A.state_set_window_mode, hi,
              hT, hm, A.servo_set_handle_position, hs]⟩
          | closed =>
            right; right
            exact ⟨.closed, 0, by simp [A.state_set_window_mode, hi, hT, hm,
                A.servo_set_handle_position, A.servo_set_gap_percentage, hs],
              by simp [A.servo_set_handle_position, hs]⟩
          | opened =>
            right; right
            exact ⟨.opened, 100, by simp [A.state_set_window_mode, hi, hT, hm,
                A.servo_set_handle_position, A.servo_set_gap_percentage, hs],
              by simp [A.servo_set_handle_position, hs]⟩
          | ventilate =>
            right; right
            exact ⟨.ventilate, 20, by simp [A.state_set_window_mode, hi, hT, hm,
                A.servo_set_handle_position, A.servo_set_gap_percentage, hs],
              by simp [A.servo_set_handle_position, hs]⟩

/-- state_save_to_nvs never changes the initialization flag. -/
theorem save_to_nvs_keeps_inited (c : A.StateCtx) :
    (A.state_save_to_nvs c).2.inited = c.inited := by
  unfold A.state_save_to_nvs
  split <;> rfl

/-- A state_set_window_mode call that already finds the decoded mode
current is a pure no-op success. -/
theorem set_mode_noop (tag now : Nat) (c : A.StateCtx) (mode : A.WindowMode)
    (hi : c.inited = true) (hT : A.windowModeOfTag tag = some mode)
    (hm : c.state.mode = mode) :
    A.state_set_window_mode tag now c = ⟨.ok, c, [], []⟩ := by
  simp [A.state_set_window_mode, hi, hT, hm]

/-- A successful state_set_window_mode call leaves the module initialized
and the stored mode equal to the decoded request. -/
theorem set_mode_ok_ctx (tag now : Nat) (c : A.StateCtx) (mode : A.WindowMode)
    (hT : A.windowModeOfTag tag = some mode)
    (h : (A.state_set_window_mode tag now c).ret = .ok) :
    (A.state_set_window_mode tag now c).ctx.inited = true ∧
    (A.state_set_window_mode tag now c).ctx.state.mode = mode := by
  cases hi : c.inited with
  | false => simp [A.state_set_window_mode, hi] at h
  | true =>
    by_cases hm : mode = c.state.mode
    · constructor <;> simp [A.state_set_window_mode, hi, hT, hm.symm]
    · cases hs : c.servo.inited with
      | false =>
        exfalso
        cases mode <;>
          simp [A.state_set_window_mode, hi, hT, hm,
            A.servo_set_handle_position, hs] at h
      | true =>
        by_cases ha : c.config.save_to_nvs = true <;>
          by_cases hb : c.nvs_opened = true <;>
            cases mode <;>
              constructor <;>
                simp [A.state_set_window_mode, hi, hT, hm,
                  A.servo_set_handle_position, A.servo_set_gap_percentage,
                  A.state_save_to_nvs, hs, ha, hb]

/-- C7: if a state_set_window_mode call returned success, immediately
repeating it with the same mode tag is idempotent: the repeat returns
success, commands no actuator, reports nothing, and leaves the entire
context (mode, handle position, gap percentage, calibrated, in_motion,
last_action_time, NVS) unchanged. -/
theorem C7_set_mode_idempotent (tag now now' : Nat) (c : A.StateCtx)
    (h : (A.state_set_window_mode tag now c).ret = .ok) :
    A.state_set_window_mode tag now' (A.state_set_window_mode tag now c).ctx =
      ⟨.ok, (A.state_set_window_mode tag now c).ctx, [], []⟩ := by
  rcases hT : A.windowModeOfTag tag with _ | mode
  · cases hi : c.inited with
    | false => simp [A.state_set_window_mode, hi] at h
    | true => simp [A.state_set_window_mode, hi, hT] at h
  · obtain ⟨h1, h2⟩ := set_mode_ok_ctx tag now c mode hT h
    exact set_mode_noop tag now' _ mode h1 hT h2

/-- C7 witness: set_mode(Open) from the factory context succeeds and its
immediate repetition is a no-op success. -/
theorem C7_set_mode_idempotent_witness :
    (A.state_set_window_mode 1 5 sampleCtx).ret = .ok ∧
    A.state_set_window_mode 1 9 (A.state_set_window_mode 1 5 sampleCtx).ctx =
      ⟨.ok, (A.state_set_window_mode 1 5 sampleCtx).ctx, [], []⟩ :=
  ⟨by decide, C7_set_mode_idempotent 1 5 9 sampleCtx (by decide)⟩

/-- Mode-position consistency of the spec: a non-Custom mode carries its
canonical (handle position, gap percentage) pair — Closed (closed, 0),
Open (opened, 100), Ventilate (ventilate, 20). -/
def consistent (s : A.WindowState) : Bool :=
  match s.mode with
  | .closed => s.handle_pos == .closed && s.gap_percentage == 0
  | .opened => s.handle_pos == .opened && s.gap_percentage == 100
  | .ventilate => s.handle_pos == .ventilate && s.gap_percentage == 20
  | .custom => true

/-- The window state is untouched by the persistence branch at the end of
the committing operations. -/
theorem state_of_save_ite (P : Prop) [Decidable P] (c : A.StateCtx) :
    (if P then (A.state_save_to_nvs c).2 else c).state = c.state := by
  split <;> simp [save_to_nvs_keeps_state]

/-- C2 counterexample: from the consistent factory context
(Closed, closed, 0), state_set_handle_position to the Open position (tag
90) succeeds and commits mode = Open with gap percentage still 0 — mode
Open paired with a non-canonical gap, and the mode was not forced to
Custom. -/
theorem C2_counterexample :
    consistent sampleCtx.state = true ∧
    (A.state_set_handle_position 90 5 sampleCtx).ret = .ok ∧
    (A.state_set_handle_position 90 5 sampleCtx).ctx.state.mode = .opened ∧
    (A.state_set_handle_position 90 5 sampleCtx).ctx.state.gap_percentage = 0 ∧
    consistent (A.state_set_handle_position 90 5 sampleCtx).ctx.state = false := by
  decide

/-- C2 amended: the mode-position consistency invariant is preserved by
state_set_window_mode, state_set_gap_percentage and state_factory_reset
from every consistent context (state_set_gap_percentage forces Custom on
any pairing mismatch); state_set_handle_position is excluded because it
re-derives the mode from the handle position while leaving the gap
percentage unchanged. -/
theorem C2_pairing_invariant (c : A.StateCtx) (now tag p : Nat)
    (h : consistent c.state = true) :
    consistent (A.state_set_window_mode tag now c).ctx.state = true ∧
    consistent (A.state_set_gap_percentage p now c).ctx.state = true ∧
    consistent (A.state_factory_reset now c).ctx.state = true := by
  refine ⟨?_, ?_, ?_⟩
  · cases hi : c.inited with
    | false => simpa [A.state_set_window_mode, hi] using h
    | true =>
      rcases hT : A.windowModeOfTag tag with _ | mode
      · simpa [A.state_set_window_mode, hi, hT] using h
      · by_cases hm : mode = c.state.mode
        · simpa [A.state_set_window_mode, hi, hT, hm] using h
        · cases hs : c.servo.inited with
          | false =>
            cases mode <;>
              simpa [A.state_set_window_mode, hi, hT, hm,
                A.servo_set_handle_position, hs] using h
          | true =>
            cases mode <;>
              simp [A.state_set_window_mode, hi, hT, hm,
                A.servo_set_handle_position, A.servo_set_gap_percentage, hs,
                state_of_save_ite, consistent]
  · cases hi : c.inited with
    | false => simpa [A.state_set_gap_percentage, hi] using h
    | true =>
      by_cases hp : p > 100
      · simpa [A.state_set_gap_percentage, hi, hp] using h
      · by_cases hq : p = c.state.gap_percentage
        · have hp' : ¬(100 < c.state.gap_percentage) := hq ▸ hp
          simpa [A.state_set_gap_percentage, hi, hp', hq] using h
        · cases hs : c.servo.inited with
          | false =>
            simpa [A.state_set_gap_percentage, hi, hp, hq,
              A.servo_set_gap_percentage, hs] using h
          | true =>
            by_cases hf : ((c.state.handle_pos = A.HandlePosition.opened ∧ p ≠ 100) ∨
                (c.state.handle_pos = A.HandlePosition.ventilate ∧ p ≠ 20) ∨
                (c.state.handle_pos = A.HandlePosition.closed ∧ p ≠ 0))
            · simp [A.state_set_gap_percentage, hi, hp, hq,
                A.servo_set_gap_percentage, hs, hf, state_of_save_ite,
                consistent]
            · push_neg at hf
              obtain ⟨f1, f2, f3⟩ := hf
              simp only [A.state_set_gap_percentage, hi, hp, hq,
                A.servo_set_gap_percentage, hs]
              cases hmo : c.state.mode with
              | custom =>
                simp [hmo, state_of_save_ite, consistent, f1, f2, f3]
              | closed =>
                have hc := h
                rw [consistent, hmo] at hc
                simp only [Bool.and_eq_true, beq_iff_eq] at hc
                have hp0 : p = 0 := f3 hc.1
                simp [hmo, state_of_save_ite, consistent, f1, f2, f3, hc.1, hp0]
              | opened =>
                have hc := h
                rw [consistent, hmo] at hc
                simp only [Bool.and_eq_true, beq_iff_eq] at hc
                have hp1 : p = 100 := f1 hc.1
                simp [hmo, state_of_save_ite, consistent, f1, f2, f3, hc.1, hp1]
              | ventilate =>
                have hc := h
                rw [consistent, hmo] at hc
                simp only [Bool.and_eq_true, beq_iff_eq] at hc
                have hp2 : p = 20 := f2 hc.1
                simp [hmo, state_of_save_ite, consistent, f1, f2, f3, hc.1, hp2]
  · cases hi : c.inited with
    | false => simpa [A.state_factory_reset, hi] using h
    | true =>
      cases hs : c.servo.inited with
      | false =>
        simp [A.state_factory_reset, hi, A.servo_set_handle_position, hs,
          consistent]
      | true =>
        by_cases hb : c.nvs_opened = true <;>
          simp [A.state_factory_reset, hi, A.servo_set_handle_position,
            A.servo_set_gap_percentage, hs, hb, consistent]

/-- C2 amended witness at the factory context. -/
theorem C2_pairing_invariant_witness :
    consistent sampleCtx.state = true ∧
    consistent (A.state_set_window_mode 1 5 sampleCtx).ctx.state = true ∧
    consistent (A.state_set_gap_percentage 40 5 sampleCtx).ctx.state = true ∧
    consistent (A.state_factory_reset 5 sampleCtx).ctx.state = true :=
  ⟨by decide,
   (C2_pairing_invariant sampleCtx 5 1 40 (by decide)).1,
   (C2_pairing_invariant sampleCtx 5 1 40 (by decide)).2.1,
   (C2_pairing_invariant sampleCtx 5 1 40 (by decide)).2.2⟩

/-- Window-mode tags decode back to the mode that produced them. -/
theorem modeOfTag_tag (m : A.WindowMode) : A.windowModeOfTag m.tag = some m := by
  cases m <;> rfl

/-- Handle-position tags decode back to the position that produced them. -/
theorem handlePosOfTag_tag (p : A.HandlePosition) :
    A.handlePosOfTag p.tag = some p := by
  cases p <;> rfl

/-- A simulated restart: the in-memory state returns to the factory
defaults written by state_init, the NVS contents survive, the NVS handle
is not yet open, and the servo module has been freshly initialized. -/
def restart (c : A.StateCtx) : A.StateCtx :=
  { inited := true
    config := c.config
    state := ⟨.closed, .closed, 0, false, false, 0⟩
    last_save_time := 0
    nvs_opened := false
    nvs := c.nvs
    servo := ⟨true, .closed, 0⟩ }

/-- C6: from any initialized context with persistence enabled, the NVS
handle open and an in-range gap percentage, state_save followed by a
simulated restart followed by state_restore succeeds and reproduces the
saved mode, handle position, gap percentage and calibrated flag. -/
theorem C6_restore_roundtrip (c : A.StateCtx)
    (hi : c.inited = true) (ha : c.config.save_to_nvs = true)
    (hb : c.nvs_opened = true) (hg : c.state.gap_percentage ≤ 100) :
    (A.state_save c).1 = .ok ∧
    (A.state_restore (restart (A.state_save c).2)).ret = .ok ∧
    (A.state_restore (restart (A.state_save c).2)).ctx.state.mode = c.state.mode ∧
    (A.state_restore (restart (A.state_save c).2)).ctx.state.handle_pos =
      c.state.handle_pos ∧
    (A.state_restore (restart (A.state_save c).2)).ctx.state.gap_percentage =
      c.state.gap_percentage ∧
    (A.state_restore (restart (A.state_save c).2)).ctx.state.calibrated =
      c.state.calibrated := by
  have hg' : ¬(100 < c.state.gap_percentage) := not_lt.mpr hg
  cases hcal : c.state.calibrated <;>
    simp [A.state_save, A.state_save_to_nvs, A.state_restore, A.state_open_nvs,
      A.state_restore_from_nvs, restart, hi, ha, hb, hg', hcal,
      modeOfTag_tag, handlePosOfTag_tag, A.servo_set_handle_position,
      A.servo_set_gap_percentage]

/-- A calibrated Ventilate context used by round-trip witnesses. -/
def savedCtx : A.StateCtx :=
  ⟨true, sampleConfig, ⟨.ventilate, .ventilate, 20, true, false, 42⟩, 0, true,
   emptyNvs, sampleServoA⟩

/-- C6 witness: a calibrated Ventilate state survives the save / restart
/ restore round trip. -/
theorem C6_restore_roundtrip_witness :
    savedCtx.inited = true ∧ savedCtx.config.save_to_nvs = true ∧
    savedCtx.nvs_opened = true ∧ savedCtx.state.gap_percentage ≤ 100 ∧
    ((A.state_save savedCtx).1 = .ok ∧
     (A.state_restore (restart (A.state_save savedCtx).2)).ret = .ok ∧
     (A.state_restore (restart (A.state_save savedCtx).2)).ctx.state.mode =
       savedCtx.state.mode ∧
     (A.state_restore (restart (A.state_save savedCtx).2)).ctx.state.handle_pos =
       savedCtx.state.handle_pos ∧
     (A.state_restore (restart (A.state_save savedCtx).2)).ctx.state.gap_percentage =
       savedCtx.state.gap_percentage ∧
     (A.state_restore (restart (A.state_save savedCtx).2)).ctx.state.calibrated =
       savedCtx.state.calibrated) :=
  ⟨by decide, by decide, by decide, by decide,
   C6_restore_roundtrip savedCtx (by decide) (by decide) (by decide) (by decide)⟩

/-- C10: once the handle sweep of servo_set_window_mode(Closed) succeeds,
the call returns ESP_OK and commits mode = Closed with stored gap
percentage 0, commanding the gap servo toward 0 but discarding that
sweep's result — the commit is the same whether the gap sweep succeeds or
aborts on resistance, so the stored gap can disagree with the physical
gap servo angle. -/
theorem C10_closed_gap_result_discarded (b : B.BCtx) (h' : B.ServoB)
    (s' : B.Sense)
    (hm : B.move_servo_smooth b.handle_servo b.sense 0 = (.ok, h', s')) :
    B.servo_set_window_mode 0 b =
      (.ok, ⟨h', (B.move_servo_smooth b.gap_servo s' 0).2.1, 0, 0,
             (B.move_servo_smooth b.gap_servo s' 0).2.2⟩) := by
  rcases hX : B.move_servo_smooth b.gap_servo s' 0 with ⟨eg, g₁, s₂⟩
  simp [B.servo_set_window_mode, B.modeTargetAngle, hm, hX]

/-- A servo context whose handle already rests at 0 while the gap servo
stands at 90 degrees with a resisting obstacle (first ADC sample above
threshold). -/
def gapStuckB : B.BCtx :=
  ⟨⟨0, 0, true⟩, ⟨90, 90, true⟩, 1, 100, ⟨2000, false, [3000]⟩⟩

/-- C10 witness: closing with a stuck gap servo still returns ESP_OK and
stores gap 0, while the physical gap servo stays at 90 degrees. -/
theorem C10_closed_gap_result_discarded_witness :
    B.move_servo_smooth gapStuckB.handle_servo gapStuckB.sense 0 =
      (.ok, ⟨0, 0, true⟩, ⟨2000, false, [3000]⟩) ∧
    B.servo_set_window_mode 0 gapStuckB =
      (.ok, ⟨⟨0, 0, true⟩,
             (B.move_servo_smooth gapStuckB.gap_servo ⟨2000, false, [3000]⟩ 0).2.1,
             0, 0,
             (B.move_servo_smooth gapStuckB.gap_servo ⟨2000, false, [3000]⟩ 0).2.2⟩) ∧
    (B.move_servo_smooth gapStuckB.gap_servo ⟨2000, false, [3000]⟩ 0).1 =
      .timeout ∧
    (B.move_servo_smooth gapStuckB.gap_servo ⟨2000, false, [3000]⟩ 0).2.1.current_angle = 90 :=
  ⟨by decide,
   C10_closed_gap_result_discarded gapStuckB ⟨0, 0, true⟩ ⟨2000, false, [3000]⟩
     (by decide),
   by decide, by decide⟩

/-- A servo_set_window_mode call that fails leaves the stored mode, the
stored gap percentage and the gap servo untouched (only the handle servo
and the sensor state advanced). -/
theorem set_window_mode_err_fields (tag : Nat) (b : B.BCtx) (e : EspErr)
    (b' : B.BCtx) (hcall : B.servo_set_window_mode tag b = (e, b'))
    (he : e ≠ .ok) :
    b'.mode = b.mode ∧ b'.gap_pct = b.gap_pct ∧ b'.gap_servo = b.gap_servo := by
  rcases hT : B.modeTargetAngle tag with _ | target
  · simp only [B.servo_set_window_mode, hT, Prod.mk.injEq] at hcall
    obtain ⟨-, rfl⟩ := hcall
    exact ⟨rfl, rfl, rfl⟩
  · simp only [B.servo_set_window_mode, hT] at hcall
    rcases hmv : B.move_servo_smooth b.handle_servo b.sense target with ⟨em, h₁, s₁⟩
    simp only [hmv] at hcall
    by_cases hem : em = .ok
    · exfalso
      subst hem
      by_cases ht0 : tag = 0
      · rcases hg : B.move_servo_smooth b.gap_servo s₁ 0 with ⟨eg, g₁, s₂⟩
        simp [ht0, hg] at hcall
        exact he hcall.1.symm
      · simp [ht0] at hcall
        exact he hcall.1.symm
    · simp [hem] at hcall
      obtain ⟨-, rfl⟩ := hcall
      exact ⟨rfl, rfl, rfl⟩

/-- C1 amended: if the handle sweep of the mode-set path aborts (the
resistance case returns ESP_ERR_TIMEOUT), servo_set_window_mode returns
that error to its caller, the stored mode and gap percentage are not
committed and the gap servo is never commanded; the inbound-command
handler then swallows the error, sends no confirmation and, in
particular, emits no resistance alert within the operation (alerting is
left to the periodic supervisory task). -/
theorem C1_resistance_abort_no_commit (z : B.ZCtx) (b : B.BCtx) (tag : Nat)
    (rest : List Nat) (e : EspErr) (b' : B.BCtx)
    (hcall : B.servo_set_window_mode tag b = (e, b')) (he : e ≠ .ok) :
    b'.mode = b.mode ∧ b'.gap_pct = b.gap_pct ∧ b'.gap_servo = b.gap_servo ∧
    B.zigbee_on_command 0 (tag :: rest) z b = (z, b', []) := by
  obtain ⟨h1, h2, h3⟩ := set_window_mode_err_fields tag b e b' hcall he
  refine ⟨h1, h2, h3, ?_⟩
  simp [B.zigbee_on_command, hcall, he]

/-- A closed window with an obstacle appearing at the sixth resistance
poll (ADC samples: five below threshold, then high). -/
def resistB : B.BCtx :=
  ⟨⟨0, 0, true⟩, ⟨0, 0, true⟩, 0, 0,
   ⟨2000, false, [1000, 1000, 1000, 1000, 1000, 3000, 3000, 3000]⟩⟩

/-- The context after the aborted Ventilate command: the handle servo
stopped at the abort angle 5, the resistance latch is set, two ADC
samples were never polled (the sweep stopped immediately), and the
stored mode / gap are unchanged. -/
def resistB' : B.BCtx :=
  ⟨⟨5, 0, true⟩, ⟨0, 0, true⟩, 0, 0, ⟨2000, true, [3000, 3000]⟩⟩

/-- C1 witness: the aborted Ventilate command at resistB. -/
theorem C1_resistance_abort_no_commit_witness :
    B.servo_set_window_mode 2 resistB = (.timeout, resistB') ∧
    (EspErr.timeout ≠ EspErr.ok) ∧
    (resistB'.mode = resistB.mode ∧ resistB'.gap_pct = resistB.gap_pct ∧
     resistB'.gap_servo = resistB.gap_servo ∧
     B.zigbee_on_command 0 (2 :: []) sampleZ resistB = (sampleZ, resistB', [])) :=
  ⟨by decide, by decide,
   C1_resistance_abort_no_commit sampleZ resistB 2 [] .timeout resistB'
     (by decide) (by decide)⟩

/-- C1 counterexample: with resistance reported at the sixth step of the
handle sweep of a Ventilate command, the operation aborts with
ESP_ERR_TIMEOUT and commits nothing, but the number of alerts emitted
during the whole inbound-command handling is 0 — not exactly one as the
claim states — and the physical handle servo retains the abort angle 5. -/
theorem C1_counterexample :
    (B.servo_set_window_mode 2 resistB).1 = .timeout ∧
    ((B.zigbee_on_command 0 [2] sampleZ resistB).2.2.filter
        (fun m => m.isAlert)).length = 0 ∧
    ¬(((B.zigbee_on_command 0 [2] sampleZ resistB).2.2.filter
        (fun m => m.isAlert)).length = 1) ∧
    (B.zigbee_on_command 0 [2] sampleZ resistB).2.1.handle_servo.current_angle = 5 ∧
    (B.zigbee_on_command 0 [2] sampleZ resistB).2.1.sense.readings = [3000, 3000] := by
  decide

/-- C8 counterexample: the claim says every inbound command with payload
length below 2 is dropped without a state change, but the alternate
handler zigbee_on_command processes a SET_MODE command with a length-1
payload: with no resistance the stored mode changes from Closed (0) to
Open (1). -/
theorem C8_counterexample :
    ([1] : List Nat).length < 2 ∧
    (sampleB []).mode = 0 ∧
    (B.zigbee_on_command 0 [1] sampleZ (sampleB [])).2.1.mode = 1 := by
  decide

/-- C8 amended: the main handler (zigbee_command_handler of main.c) drops
every payload shorter than two bytes with no state change, no report and
no actuator command, decoding (mode tag, percentage) only from length-2
payloads; the alternate zigbee_on_command handler dispatches on the
command tag, requires only payload length 1 for SET_MODE / SET_POSITION
(dropping empty payloads without action), and drops unknown command tags
without action; both handlers are total functions, so no malformed
command crashes. -/
theorem C8_short_payload_policy (cmd now : Nat) (data : List Nat)
    (c : A.StateCtx) (z : B.ZCtx) (b : B.BCtx) (hlen : data.length < 2) :
    A.zigbee_command_handler cmd data now c = ⟨c, [], []⟩ ∧
    B.zigbee_on_command 0 [] z b = (z, b, []) ∧
    B.zigbee_on_command 1 [] z b = (z, b, []) ∧
    (∀ cmd', cmd' ∉ ([0, 1, 3] : List Nat) →
      B.zigbee_on_command cmd' data z b = (z, b, [])) := by
  refine ⟨?_, rfl, rfl, ?_⟩
  · rcases data with _ | ⟨x, _ | ⟨y, rest⟩⟩
    · rfl
    · rfl
    · simp at hlen
      omega
  · intro cmd' hc
    rcases cmd' with _ | _ | _ | _ | n
    · simp at hc
    · simp at hc
    · rfl
    · simp at hc
    · rfl

/-- C8 witness: a length-1 payload [9] at the factory context. -/
theorem C8_short_payload_policy_witness :
    ([9] : List Nat).length < 2 ∧
    (A.zigbee_command_handler 0 [9] 5 sampleCtx = ⟨sampleCtx, [], []⟩ ∧
     B.zigbee_on_command 0 [] sampleZ (sampleB []) = (sampleZ, sampleB [], []) ∧
     B.zigbee_on_command 1 [] sampleZ (sampleB []) = (sampleZ, sampleB [], []) ∧
     (∀ cmd', cmd' ∉ ([0, 1, 3] : List Nat) →
       B.zigbee_on_command cmd' [9] sampleZ (sampleB []) =
         (sampleZ, sampleB [], []))) :=
  ⟨by decide,
   C8_short_payload_policy 0 5 [9] sampleCtx sampleZ (sampleB []) (by decide)⟩

end Window
